import Mathlib

/-!
Verification development for `gitlab_jobs_logs_downloader.py`
(Bigouden/gitlab-jobs-logs-downloader).

The Python source is shallowly embedded: pure string manipulation becomes
Lean functions on `String`/`List Char`, the HTTP API and the filesystem
become explicit oracles passed as parameters, the unbounded `while` loops
become fuel-indexed structural recursions (`none` = fuel exhausted), and
Python exceptions / `os._exit(1)` become an `Except Crash` result.
Observable side effects (sleeps, HTTP trace requests, file writes, log
lines) are collected in an explicit effect trace.
-/

namespace GitlabJobsLogs

/-- Embedding of Python `str.split(sep)` (non-empty `sep`) on character
lists: greedy left-to-right scan, cutting at each occurrence of `sep` and
continuing after it.  `fuel` only bounds the recursion; `sep.length + 1`
fuel per consumed character is more than enough, and the wrapper below
supplies `s.length + 1`. -/
def pySplitGo (sep : List Char) : Nat → List Char → List Char → List (List Char)
  | _, [], acc => [acc.reverse]
  | 0, _ :: _, acc => [acc.reverse]
  | fuel + 1, c :: cs, acc =>
    if sep.isPrefixOf (c :: cs) then
      acc.reverse :: pySplitGo sep fuel ((c :: cs).drop sep.length) []
    else
      pySplitGo sep fuel cs (c :: acc)

/-- Embedding of Python `s.split(sep)` for a non-empty separator, e.g.
`"a, b".split(", ") = ["a", "b"]`, `"".split(", ") = [""]`,
`"ab".split("; ") = ["ab"]`. -/
def pySplit (sep s : String) : List String :=
  (pySplitGo sep.data (s.data.length + 1) s.data []).map String.mk

/-- Embedding of Python `s.strip(chars)`: remove all leading and trailing
characters belonging to `cs`. -/
def pyStrip (cs : List Char) (s : String) : String :=
  String.mk (((s.data.dropWhile (cs.contains ·)).reverse.dropWhile (cs.contains ·)).reverse)

/-- Python exceptions and process terminations that the embedded code can
produce: `os._exit(1)`, the `ValueError` of a failed tuple unpacking, the
`IndexError` of `list[1]` on a short list, and the `KeyError` of
`dict[key]` on a dict lacking the key. -/
inductive Crash
  | exit1
  | valueError
  | indexError
  | keyError
deriving DecidableEq

/-- Loop body of `extract_next_page_url` (source lines 164-171): iterate
over the `", "`-separated link entries; `link.split("; ")` unpacked into
exactly two variables raises `ValueError` otherwise; `rel.split("=")[1]`
raises `IndexError` when the rel part has no `"="`; the first entry whose
stripped rel value equals `"next"` returns its url stripped of `<>`. -/
def extractGo : List String → Except Crash (Option String)
  | [] => .ok none
  | link :: rest =>
    match pySplit "; " link with
    | [url, rel] =>
      match (pySplit "=" rel)[1]? with
      | some v =>
        if pyStrip ['"'] v = "next" then .ok (some (pyStrip ['<', '>'] url))
        else extractGo rest
      | none => .error .indexError
    | _ => .error .valueError

/-- Embedding of `GitlabJobsLogsDownloader.extract_next_page_url`
(source lines 161-171). -/
def extract_next_page_url (link_header : String) : Except Crash (Option String) :=
  extractGo (pySplit ", " link_header)

/-- Modelled from the spec (§4.2 pagination parsing contract, the spec's
words): the contribution of one link entry, `(url, rel)` with the url
stripped of the surrounding angle brackets and the rel value extracted
from `rel="..."` — the url when that rel equals `"next"`, nothing
otherwise. -/
def nextUrlCandidate (link : String) : Option String :=
  match pySplit "; " link with
  | [url, rel] =>
    match (pySplit "=" rel)[1]? with
    | some v => if pyStrip ['"'] v = "next" then some (pyStrip ['<', '>'] url) else none
    | none => none
  | _ => none

/-- Modelled from the spec (§4.2 pagination parsing contract, the spec's
words, for comparison with the source embedding): split the header on
`", "`; return the (first) url whose rel equals `"next"`, or none if
absent. -/
def extractNextPageUrlSpec (header : String) : Option String :=
  (pySplit ", " header).findSome? nextUrlCandidate

/-- A link entry on which the loop body of `extract_next_page_url` does not
raise: it splits on `"; "` into exactly two parts and the second part
contains an `"="`. -/
def wellFormedLink (link : String) : Bool :=
  match pySplit "; " link with
  | [_, rel] => 2 ≤ (pySplit "=" rel).length
  | _ => false

/-- The rel value the loop body of `extract_next_page_url` computes for a
link entry (`none` when the entry is malformed). -/
def relValueOf (link : String) : Option String :=
  match pySplit "; " link with
  | [_, rel] => ((pySplit "=" rel)[1]?).map (pyStrip ['"'])
  | _ => none

/-- An element of a job's `artifacts` list; `file_type` models
`artifact.get("file_type")`, which yields `None` when the key is absent. -/
structure Artifact where
  file_type : Option String
deriving DecidableEq

/-- The JSON object returned by `get_job` on a 200 response, restricted to
the keys the program reads (source lines 284-287 and the two wait loops);
`raw` is the rendered JSON text used by the `logging.debug("JOB=%s", ...)`
line. -/
structure JobDetail where
  raw : String
  artifacts : List Artifact
  stage : String
  name : String
  status : String
deriving DecidableEq

/-- The response of the trace endpoint `GET .../jobs/{id}/trace`. -/
structure TraceResponse where
  status_code : Nat
  content : List UInt8
deriving DecidableEq

/-- Outcome of opening `{directory}/{filename}` for writing: success, or
the `FileNotFoundError` / `PermissionError` the source catches. -/
inductive WriteOutcome
  | ok
  | fileNotFound
  | permissionDenied
deriving DecidableEq

/-- The remote API and filesystem as seen while processing one job:
`detail` is what the initial `get_job` returns (`none` = non-200, i.e. the
empty dict `{}`); `statusRefetch k` / `artifactRefetch k` are the results
of the k-th `get_job` re-fetch inside the running-wait / artifact-wait
loop; `trace` is the trace endpoint's response and `writeRes` the
filesystem's reaction to the write. -/
structure JobApi where
  detail : Option JobDetail
  statusRefetch : Nat → Option JobDetail
  artifactRefetch : Nat → Option JobDetail
  trace : TraceResponse
  writeRes : WriteOutcome

/-- The environment-derived configuration constants the per-job logic
reads (directory, filename delimiter and the three timing parameters). -/
structure Config where
  directory : String
  delimiter : String
  checkInterval : Nat
  runningTimeout : Nat
  endTimeout : Nat

/-- Observable side effects of the per-job processing, in program order. -/
inductive Effect
  | sleep (seconds : Nat)
  | fetchJob
  | traceRequest
  | fileWrite (path : String) (content : List UInt8)
  | log (line : String)
deriving DecidableEq

/-- The sleep durations occurring in an effect trace, in order. -/
def sleepsOf (effs : List Effect) : List Nat :=
  effs.filterMap fun e => match e with | .sleep n => some n | _ => none

/-- The file writes occurring in an effect trace, in order. -/
def writesOf (effs : List Effect) : List (String × List UInt8) :=
  effs.filterMap fun e => match e with | .fileWrite p c => some (p, c) | _ => none

/-- The log lines occurring in an effect trace, in order. -/
def logsOf (effs : List Effect) : List String :=
  effs.filterMap fun e => match e with | .log l => some l | _ => none

/-- `logging.debug("JOB=%s", response.json())`, source line 180. -/
def jobDebugLine (raw : String) : String := "JOB=" ++ raw

/-- Skip log line, source lines 290-296. -/
def skipLine (n s p st : String) : String :=
  "JOB=\"" ++ n ++ "\" STAGE=\"" ++ s ++ "\" PROJECT=\"" ++ p ++ "\" STATUS=\"" ++ st ++ "\" SKIP !"

/-- Running-timeout log line, source lines 190-195 (the stray trailing
quote is in the source format string). -/
def runningTimeoutLine (n s p : String) : String :=
  "JOB=\"" ++ n ++ "\" STAGE=\"" ++ s ++ "\" PROJECT=\"" ++ p ++ "\" RUNNING JOB TIMEOUT WAS REACHED !\""

/-- Still-running log line, source lines 197-202. -/
def stillRunningLine (n s p : String) : String :=
  "JOB=\"" ++ n ++ "\" STAGE=\"" ++ s ++ "\" PROJECT=\"" ++ p ++ "\" STILL RUNNING !\""

/-- End-timeout log line, source lines 216-221. -/
def endTimeoutLine (n s p : String) : String :=
  "JOB=\"" ++ n ++ "\" STAGE=\"" ++ s ++ "\" PROJECT=\"" ++ p ++ "\" END JOB TIMEOUT WAS REACHED !\""

/-- No-logs-yet warning line, source lines 223-228. -/
def noLogsLine (n s p : String) : String :=
  "NO LOGS FOR JOB=\"" ++ n ++ "\" STAGE=\"" ++ s ++ "\" PROJECT=\"" ++ p ++ "\""

/-- Downloading-logs info line, source lines 246-251. -/
def downloadingLine (n s p : String) : String :=
  "DOWNLOADING LOGS FOR JOB=\"" ++ n ++ "\" STAGE=\"" ++ s ++ "\" PROJECT=\"" ++ p ++ "\""

/-- Unable-to-download error line, source lines 253-258. -/
def unableLine (n s p : String) : String :=
  "UNABLE TO DOWNLOAD LOGS FOR JOB=\"" ++ n ++ "\" STAGE=\"" ++ s ++ "\" PROJECT=\"" ++ p ++ "\""

/-- Destination info line, source lines 263-265. -/
def destLine (dir filename : String) : String := "DESTINATION=" ++ dir ++ "/" ++ filename

/-- `any(artifact.get("file_type") == "trace" for artifact in job_artifacts)`,
source lines 210-212. -/
def hasTraceArtifact (arts : List Artifact) : Bool :=
  arts.any fun a => a.file_type == some "trace"

/-- Embedding of `check_running_timeout` (source lines 183-205).  State:
remaining fuel, seconds elapsed since `init`, index of the next re-fetch,
current `job_status`.  Elapsed time advances exactly by the slept
durations.  Returns `none` when fuel runs out, `.error .keyError` when a
re-fetch returns the empty dict and `["status"]` raises, and otherwise the
boolean the source returns together with the effect trace. -/
def checkRunningGo (T : Nat) (p n s : String) (refetch : Nat → Option JobDetail) :
    Nat → Nat → Nat → String → Option (Except Crash (Bool × List Effect))
  | 0, _, _, _ => none
  | fuel + 1, elapsed, k, status =>
    if status = "running" then
      if T ≤ elapsed then some (.ok (true, [.log (runningTimeoutLine n s p)]))
      else
        match refetch k with
        | none => some (.error .keyError)
        | some d =>
          (checkRunningGo T p n s refetch fuel (elapsed + T) (k + 1) d.status).map
            (Except.map fun r =>
              (r.1, .log (stillRunningLine n s p) :: .sleep T :: .fetchJob ::
                    .log (jobDebugLine d.raw) :: r.2))
    else some (.ok (false, []))

/-- Embedding of `check_end_timeout` (source lines 207-231), with the same
conventions as `checkRunningGo`; the sleep here is the check interval `I`. -/
def checkEndGo (E I : Nat) (p n s : String) (refetch : Nat → Option JobDetail) :
    Nat → Nat → Nat → List Artifact → Option (Except Crash (Bool × List Effect))
  | 0, _, _, _ => none
  | fuel + 1, elapsed, k, arts =>
    if hasTraceArtifact arts then some (.ok (false, []))
    else if E ≤ elapsed then some (.ok (true, [.log (endTimeoutLine n s p)]))
    else
      match refetch k with
      | none => some (.error .keyError)
      | some d =>
        (checkEndGo E I p n s refetch fuel (elapsed + I) (k + 1) d.artifacts).map
          (Except.map fun r =>
            (r.1, .log (noLogsLine n s p) :: .sleep I :: .fetchJob ::
                  .log (jobDebugLine d.raw) :: r.2))

/-- How the processing of a single job ends (when it neither crashes the
process nor exhausts fuel). -/
inductive JobOutcome
  | skipped
  | runningTimeout
  | endTimeout
  | downloadFailed
  | written (path : String) (content : List UInt8)
deriving DecidableEq

/-- Modelled from the spec (§4.3 filename slugification; the `slugify`
library is an external dependency, not part of this repository): lossy
transformation to a lowercase token, collapsing runs of non-alphanumeric
characters to single `-` separators and dropping them at the ends. -/
def slugify (s : String) : String :=
  let mapped := s.data.map fun c => if c.isAlphanum then c.toLower else ' '
  String.intercalate "-"
    (((pySplitGo [' '] (mapped.length + 1) mapped []).filter (· ≠ [])).map String.mk)

/-- The output filename built at source lines 235-241. -/
def logFilename (cfg : Config) (projectName jobStage jobName : String) : String :=
  slugify projectName ++ cfg.delimiter ++ slugify jobStage ++ cfg.delimiter ++
    slugify jobName ++ ".log"

/-- Embedding of `download_logs` (source lines 233-277): issue the trace
request, log, abandon on non-200, otherwise write the raw body to
`{directory}/{filename}`; a missing directory or denied permission
terminates the process (`os._exit(1)`). -/
def download_logs (cfg : Config) (projectName : String) (api : JobApi)
    (jobName jobStage : String) : Except Crash (JobOutcome × List Effect) :=
  let filename := logFilename cfg projectName jobStage jobName
  let effs0 : List Effect := [.traceRequest, .log (downloadingLine jobName jobStage projectName)]
  if api.trace.status_code ≠ 200 then
    .ok (.downloadFailed, effs0 ++ [.log (unableLine jobName jobStage projectName)])
  else
    match api.writeRes with
    | .ok =>
      let path := cfg.directory ++ "/" ++ filename
      .ok (.written path api.trace.content,
           effs0 ++ [.fileWrite path api.trace.content, .log (destLine cfg.directory filename)])
    | .fileNotFound => .error .exit1
    | .permissionDenied => .error .exit1

/-- The statuses of the unconditional skip gate, source line 289. -/
def skipStatuses : List String := ["pending", "manual", "scheduled", "skipped", "created"]

/-- Embedding of one iteration of the loop body of
`download_pipeline_jobs_logs` (source lines 281-305): initial `get_job`
(`none` = empty dict, whose `["artifacts"]` access raises `KeyError`),
skip gate, running-wait, artifact-wait, download. -/
def processJob (cfg : Config) (projectName : String) (api : JobApi)
    (fuelR fuelE : Nat) : Option (Except Crash (JobOutcome × List Effect)) :=
  match api.detail with
  | none => some (.error .keyError)
  | some job =>
    let effs0 : List Effect := [.fetchJob, .log (jobDebugLine job.raw)]
    if job.status ∈ skipStatuses then
      some (.ok (.skipped, effs0 ++ [.log (skipLine job.name job.stage projectName job.status)]))
    else
      match checkRunningGo cfg.runningTimeout projectName job.name job.stage
          api.statusRefetch fuelR 0 0 job.status with
      | none => none
      | some (.error c) => some (.error c)
      | some (.ok (true, e1)) => some (.ok (.runningTimeout, effs0 ++ e1))
      | some (.ok (false, e1)) =>
        match checkEndGo cfg.endTimeout cfg.checkInterval projectName job.name job.stage
            api.artifactRefetch fuelE 0 0 job.artifacts with
        | none => none
        | some (.error c) => some (.error c)
        | some (.ok (true, e2)) => some (.ok (.endTimeout, effs0 ++ e1 ++ e2))
        | some (.ok (false, e2)) =>
          match download_logs cfg projectName api job.name job.stage with
          | .error c => some (.error c)
          | .ok (out, e3) => some (.ok (out, effs0 ++ e1 ++ e2 ++ e3))

/-- Embedding of the loop of `download_pipeline_jobs_logs` over the sorted
job list: per-job oracles are processed in order; a crash aborts the run,
fuel exhaustion yields `none`, and otherwise the log lines and the list of
per-job outcomes are returned. -/
def download_pipeline_jobs_logs (cfg : Config) (projectName : String)
    (fuelR fuelE : Nat) : List JobApi → List String × Option (Except Crash (List JobOutcome))
  | [] => ([], some (.ok []))
  | api :: rest =>
    match processJob cfg projectName api fuelR fuelE with
    | none => ([], none)
    | some (.error c) => ([], some (.error c))
    | some (.ok (out, effs)) =>
      let r := download_pipeline_jobs_logs cfg projectName fuelR fuelE rest
      (logsOf effs ++ r.1, r.2.map (Except.map (out :: ·)))

/-- A job summary from the paginated job-list endpoint.  The program reads
exactly one key of these objects: `x["id"]` (sort key, source line 159,
and the detail fetch, source line 282), so the summary is embedded as its
id. -/
structure JobSummary where
  id : Nat
deriving DecidableEq

/-- One response of the paginated job-list endpoint: status code, decoded
JSON body (a list of job summaries) and the optional `Link` header. -/
structure PageResponse where
  status_code : Nat
  jobs : List JobSummary
  linkHeader : Option String


/-- The pagination step the loop of `get_pipeline_jobs` performs on a
response: no `Link` header means stop, otherwise parse it with
`extract_next_page_url` (which may raise). -/
def pageNext (r : PageResponse) : Except Crash (Option String) :=
  match r.linkHeader with
  | none => .ok none
  | some lh => extract_next_page_url lh

/-- The `while True` loop of `get_pipeline_jobs` (source lines 139-157):
fetch the current url, `os._exit(1)` on non-200, accumulate the body, and
follow the parsed next-page url until a page has no `Link` header or no
`next` relation. -/
def getPipelineJobsGo (fetch : String → PageResponse) :
    Nat → String → List JobSummary → Option (Except Crash (List JobSummary))
  | 0, _, _ => none
  | fuel + 1, url, acc =>
    let r := fetch url
    if r.status_code ≠ 200 then some (.error .exit1)
    else
      match pageNext r with
      | .error c => some (.error c)
      | .ok none => some (.ok (acc ++ r.jobs))
      | .ok (some nextUrl) => getPipelineJobsGo fetch fuel nextUrl (acc ++ r.jobs)

/-- `sorted(pipeline_jobs, key=lambda x: x["id"])`, source line 159. -/
def sortById (jobs : List JobSummary) : List JobSummary :=
  jobs.mergeSort fun a b => a.id ≤ b.id

/-- Embedding of `get_pipeline_jobs` (source lines 133-159): accumulate
the summaries across all pages, then sort ascending by id. -/
def get_pipeline_jobs (fetch : String → PageResponse) (url : String) (fuel : Nat) :
    Option (Except Crash (List JobSummary)) :=
  (getPipelineJobsGo fetch fuel url []).map (Except.map sortById)

/-- `fetch` serves the page list `ps` as a chain starting at `url`: each
page answers 200, each non-final page's `Link` header parses to the next
page's url, and the final page stops the pagination (no header or no
`next` relation). -/
inductive PageChain (fetch : String → PageResponse) : String → List PageResponse → Prop
  | last {url r} : fetch url = r → r.status_code = 200 → pageNext r = .ok none →
      PageChain fetch url [r]
  | cons {url r url2 rs} : fetch url = r → r.status_code = 200 →
      pageNext r = .ok (some url2) → PageChain fetch url2 rs →
      PageChain fetch url (r :: rs)

/-- `MANDATORY_ENV_VARS`, source lines 58-63; the source comment requires
the token to be the last element so that `main`'s startup loop (which logs
`MANDATORY_ENV_VARS[:-1]`) never logs it. -/
def MANDATORY_ENV_VARS : List String :=
  ["CI_PROJECT_ID", "CI_PIPELINE_ID", "CI_API_V4_URL", "CI_API_TOKEN"]

/-- The remote side of a whole run: the project endpoint's status, the
rendered project JSON (for the debug line), the project name, the
paginated job-list endpoint and the per-job-id oracle. -/
structure RunOracle where
  projectStatus : Nat
  projectRaw : String
  projectName : String
  pageFetch : String → PageResponse
  jobApiOf : Nat → JobApi

/-- Rendering of the accumulated job list used by the modelled
`logging.debug("JOBS=%s", pipeline_jobs)` line (source line 158); the
debug payload is modelled up to this rendering function. -/
def renderJobs (jobs : List JobSummary) : String :=
  String.intercalate "," (jobs.map fun j => toString j.id)

/-- The jobs-of-pipeline url built at source lines 135-137. -/
def jobsUrl (apiV4Url projectId pipelineId : String) : String :=
  apiV4Url ++ "/projects/" ++ projectId ++ "/pipelines/" ++ pipelineId ++ "/jobs"

/-- Embedding of a whole run (`main` plus `GitlabJobsLogsDownloader`,
source lines 111-317): from the environment (`env`), the configuration and
the oracle, compute the session headers (the only place the token flows,
source line 116), the full ordered list of log lines, and the final
result.  `env` is total, mirroring `os.environ.get` after the
mandatory-variable check has passed. -/
def runDownloader (env : String → String) (cfg : Config) (oracle : RunOracle)
    (fuelP fuelR fuelE : Nat) :
    List (String × String) × (List String × Option (Except Crash (List JobOutcome))) :=
  let headers := [("PRIVATE-TOKEN", env "CI_API_TOKEN")]
  let startupLogs := "Starting Gitlab Jobs Logs Downloader" ::
    (MANDATORY_ENV_VARS.dropLast.map fun v => v ++ "=" ++ env v) ++
    ["GITLAB_JOBS_LOGS_DOWNLOADER_DIRECTORY=" ++ cfg.directory]
  if oracle.projectStatus ≠ 200 then
    (headers,
     (startupLogs ++ ["UNKNOWN GITLAB PROJECT ID " ++ env "CI_PROJECT_ID" ++ " !"],
      some (.error .exit1)))
  else
    let logs1 := startupLogs ++
      ["PROJECT=" ++ oracle.projectRaw, "GITLAB_PROJECT_NAME=" ++ oracle.projectName]
    match getPipelineJobsGo oracle.pageFetch fuelP
        (jobsUrl (env "CI_API_V4_URL") (env "CI_PROJECT_ID") (env "CI_PIPELINE_ID")) [] with
    | none => (headers, (logs1, none))
    | some (.error c) =>
      (headers,
       (logs1 ++ (if c = .exit1 then
          ["UNKNOWN GITLAB PIPELINE ID " ++ env "CI_PIPELINE_ID" ++ " FOR " ++
            oracle.projectName] else []),
        some (.error c)))
    | some (.ok raw) =>
      let jobs := sortById raw
      let logs2 := logs1 ++
        ["JOBS=" ++ renderJobs raw, "RETRIEVING " ++ toString jobs.length ++ " JOBS"]
      let jr := download_pipeline_jobs_logs cfg oracle.projectName fuelR fuelE
        (jobs.map fun j => oracle.jobApiOf j.id)
      (headers, (logs2 ++ jr.1, jr.2))

/-- The filesystem update a successful `open(path, "wb"); f.write(content)`
performs: the file at `path` now holds exactly `content`, previous content
discarded. -/
def writeFile (p : String) (c : List UInt8) (fs : String → Option (List UInt8)) :
    String → Option (List UInt8) :=
  fun q => if q = p then some c else fs q

/-- Example configuration with the default environment values
(`/tmp`, `#`, 10 s, 60 s, 120 s). -/
def cfgEx : Config :=
  { directory := "/tmp", delimiter := "#", checkInterval := 10,
    runningTimeout := 60, endTimeout := 120 }

/-- Example trace response: 200 with a two-byte body. -/
def traceOk : TraceResponse := { status_code := 200, content := [104, 105] }

/-- Example trace response: 404. -/
def traceErr : TraceResponse := { status_code := 404, content := [] }

/-- Example job oracle whose every detail fetch returns non-200, i.e. the
empty dict. -/
def apiNone : JobApi :=
  { detail := none, statusRefetch := fun _ => none, artifactRefetch := fun _ => none,
    trace := traceOk, writeRes := .ok }

/-- Example job detail with status `pending`. -/
def jobPending : JobDetail :=
  { raw := "json-job-1", artifacts := [], stage := "test", name := "unit", status := "pending" }

/-- Example job oracle for a pending job. -/
def apiPending : JobApi :=
  { detail := some jobPending, statusRefetch := fun _ => none,
    artifactRefetch := fun _ => none, trace := traceOk, writeRes := .ok }

/-- Example job detail with status `running`. -/
def jobRunning : JobDetail :=
  { raw := "json-job-2", artifacts := [], stage := "test", name := "unit", status := "running" }

/-- Example job oracle for a job that stays running forever. -/
def apiRunning : JobApi :=
  { detail := some jobRunning, statusRefetch := fun _ => some jobRunning,
    artifactRefetch := fun _ => none, trace := traceOk, writeRes := .ok }

/-- Example job detail: finished (`success`) but with no trace artifact. -/
def jobNoTrace : JobDetail :=
  { raw := "json-job-3", artifacts := [{ file_type := some "metadata" }],
    stage := "test", name := "unit", status := "success" }

/-- Example job oracle for a job that never produces a trace artifact. -/
def apiNoTrace : JobApi :=
  { detail := some jobNoTrace, statusRefetch := fun _ => none,
    artifactRefetch := fun _ => some jobNoTrace, trace := traceOk, writeRes := .ok }

/-- Example job detail: finished with a trace artifact present. -/
def jobDone : JobDetail :=
  { raw := "json-job-4", artifacts := [{ file_type := some "trace" }],
    stage := "test", name := "unit", status := "success" }

/-- Example job oracle: finished job whose trace download answers 404. -/
def apiTraceFail : JobApi :=
  { detail := some jobDone, statusRefetch := fun _ => none,
    artifactRefetch := fun _ => none, trace := traceErr, writeRes := .ok }

/-- Example job oracle: finished job, 200 trace, writable directory. -/
def apiTraceOk : JobApi :=
  { detail := some jobDone, statusRefetch := fun _ => none,
    artifactRefetch := fun _ => none, trace := traceOk, writeRes := .ok }

/-- Example job oracle: finished job, 200 trace, missing output directory. -/
def apiDirMissing : JobApi :=
  { detail := some jobDone, statusRefetch := fun _ => none,
    artifactRefetch := fun _ => none, trace := traceOk, writeRes := .fileNotFound }

/-- Example job oracle: finished job, 200 trace, unwritable directory. -/
def apiDirDenied : JobApi :=
  { detail := some jobDone, statusRefetch := fun _ => none,
    artifactRefetch := fun _ => none, trace := traceOk, writeRes := .permissionDenied }

/-- First page of the example paginated job-list response. -/
def page1 : PageResponse :=
  { status_code := 200, jobs := [{ id := 3 }, { id := 1 }],
    linkHeader := some "<p2>; rel=\"next\"" }

/-- Second and final page of the example paginated job-list response. -/
def page2 : PageResponse :=
  { status_code := 200, jobs := [{ id := 2 }], linkHeader := none }

/-- Example job-list endpoint serving `page1` at the pipeline url and
`page2` at the url `page1`'s `Link` header points to. -/
def fetchEx (url : String) : PageResponse :=
  if url = "p2" then page2 else page1

/-- First page of an alternative serving of the same job set, distributed
differently across the pages. -/
def page1b : PageResponse :=
  { status_code := 200, jobs := [{ id := 1 }, { id := 2 }],
    linkHeader := some "<p2>; rel=\"next\"" }

/-- Second page of the alternative serving. -/
def page2b : PageResponse :=
  { status_code := 200, jobs := [{ id := 3 }], linkHeader := none }

/-- Example job-list endpoint serving the same jobs as `fetchEx` but
distributed differently across the pages. -/
def fetchEx2 (url : String) : PageResponse :=
  if url = "p2" then page2b else page1b

/-- Example environment mapping with token `"tokenA"`. -/
def envA (v : String) : String := if v = "CI_API_TOKEN" then "tokenA" else "val-" ++ v

/-- Example environment mapping, identical to `envA` except for the token. -/
def envB (v : String) : String := if v = "CI_API_TOKEN" then "tokenB" else "val-" ++ v

/-- Example run oracle: known project, empty pipeline. -/
def oracleEx : RunOracle :=
  { projectStatus := 200, projectRaw := "project-json", projectName := "proj",
    pageFetch := fun _ => { status_code := 200, jobs := [], linkHeader := none },
    jobApiOf := fun _ => apiNone }

/-- A well-formed link entry splits on `"; "` into `[url, rel]` and the
rel part has an extractable value at index 1. -/
theorem wellFormedLink_shape {link : String} (h : wellFormedLink link = true) :
    ∃ url rel v, pySplit "; " link = [url, rel] ∧ (pySplit "=" rel)[1]? = some v := by
  unfold wellFormedLink at h
  cases hsp : pySplit "; " link with
  | nil => rw [hsp] at h; simp at h
  | cons u t =>
    cases t with
    | nil => rw [hsp] at h; simp at h
    | cons rel t2 =>
      cases t2 with
      | cons x t3 => rw [hsp] at h; simp at h
      | nil =>
        rw [hsp] at h
        simp only [decide_eq_true_eq] at h
        exact ⟨u, rel, _, rfl, List.getElem?_eq_getElem (by omega)⟩

/-- On a list of well-formed link entries the loop of
`extract_next_page_url` raises nothing and returns the first entry whose
rel value is `"next"`. -/
theorem extractGo_eq_findSome? :
    ∀ links : List String, (∀ l ∈ links, wellFormedLink l = true) →
    extractGo links = .ok (links.findSome? nextUrlCandidate) := by
  intro links
  induction links with
  | nil => intro _; rfl
  | cons link rest ih =>
    intro h
    obtain ⟨url, rel, v, hsp, hv⟩ := wellFormedLink_shape (h link (List.mem_cons_self _ _))
    rw [List.findSome?_cons]
    by_cases hnext : pyStrip ['"'] v = "next"
    · simp [extractGo, nextUrlCandidate, hsp, hv, hnext]
    · simp only [extractGo, nextUrlCandidate, hsp, hv, if_neg hnext]
      exact ih fun l hl => h l (List.mem_cons_of_mem _ hl)

/-- When some link entry is malformed and no entry before it has rel value
`"next"`, the loop of `extract_next_page_url` raises. -/
theorem extractGo_error_of_malformed :
    ∀ (pre : List String) (bad : String) (post : List String),
    wellFormedLink bad = false →
    (∀ l ∈ pre, wellFormedLink l = true ∧ relValueOf l ≠ some "next") →
    ∃ c, extractGo (pre ++ bad :: post) = .error c := by
  intro pre
  induction pre with
  | nil =>
    intro bad post hbad _
    cases hsp : pySplit "; " bad with
    | nil => exact ⟨.valueError, by simp [extractGo, hsp]⟩
    | cons u t =>
      cases t with
      | nil => exact ⟨.valueError, by simp [extractGo, hsp]⟩
      | cons rel t2 =>
        cases t2 with
        | cons x t3 => exact ⟨.valueError, by simp [extractGo, hsp]⟩
        | nil =>
          unfold wellFormedLink at hbad
          rw [hsp] at hbad
          simp only [decide_eq_false_iff_not, not_le] at hbad
          have h1 : (pySplit "=" rel)[1]? = none := List.getElem?_eq_none (by omega)
          exact ⟨.indexError, by simp [extractGo, hsp, h1]⟩
  | cons link pre ih =>
    intro bad post hbad hpre
    obtain ⟨hwf, hrel⟩ := hpre link (List.mem_cons_self _ _)
    obtain ⟨url, rel, v, hsp, hv⟩ := wellFormedLink_shape hwf
    have hnext : pyStrip ['"'] v ≠ "next" := by
      intro he
      apply hrel
      simp [relValueOf, hsp, hv, he]
    obtain ⟨c, hc⟩ := ih bad post hbad fun l hl => hpre l (List.mem_cons_of_mem _ hl)
    refine ⟨c, ?_⟩
    simp only [List.cons_append, extractGo, hsp, hv, if_neg hnext]
    exact hc

/-- Claim C2: for every Link header whose entries are well formed,
`extract_next_page_url` splits the header on `", "`, splits each element
on `"; "` into a url part (stripped of surrounding angle brackets) and a
rel part (value extracted from `rel="..."`), and returns the first url
whose rel equals `"next"`, or none if no element has rel `"next"` — i.e.
it returns exactly what the spec-side parsing contract
`extractNextPageUrlSpec` computes. -/
theorem extract_next_page_url_correct (header : String)
    (hwf : ∀ l ∈ pySplit ", " header, wellFormedLink l = true) :
    extract_next_page_url header = .ok (extractNextPageUrlSpec header) :=
  extractGo_eq_findSome? _ hwf

/-- Witness for claim C2 at a concrete two-entry header. -/
theorem extract_next_page_url_correct_witness :
    extract_next_page_url "<u1>; rel=\"prev\", <u2>; rel=\"next\"" =
      .ok (extractNextPageUrlSpec "<u1>; rel=\"prev\", <u2>; rel=\"next\"") :=
  extract_next_page_url_correct "<u1>; rel=\"prev\", <u2>; rel=\"next\"" (by decide)

/-- Counterexample to claim C10 as stated: the header
`"<u>; rel=\"next\", garbage"` has a comma-separated entry (`"garbage"`)
that does not contain the separator `"; "`, yet `extract_next_page_url`
does not fail — the earlier `rel="next"` entry returns first. -/
theorem extract_malformed_entry_no_error :
    wellFormedLink "garbage" = false ∧
    "garbage" ∈ pySplit ", " "<u>; rel=\"next\", garbage" ∧
    extract_next_page_url "<u>; rel=\"next\", garbage" = .ok (some "u") :=
  ⟨by decide, by decide, rfl⟩

/-- Claim C10 (amended): `extract_next_page_url` fails with an exception
on a header with a malformed entry provided no earlier entry has rel
value `"next"`; and under the precondition that every entry is well formed
the error branch is unreachable and the function returns the first
next-url or none (the spec-side contract `extractNextPageUrlSpec`). -/
theorem extract_totality (header : String) :
    (∀ pre bad post, pySplit ", " header = pre ++ bad :: post →
       wellFormedLink bad = false →
       (∀ l ∈ pre, wellFormedLink l = true ∧ relValueOf l ≠ some "next") →
       ∃ c, extract_next_page_url header = .error c) ∧
    ((∀ l ∈ pySplit ", " header, wellFormedLink l = true) →
       extract_next_page_url header = .ok (extractNextPageUrlSpec header)) := by
  constructor
  · intro pre bad post hsplit hbad hpre
    unfold extract_next_page_url
    rw [hsplit]
    exact extractGo_error_of_malformed pre bad post hbad hpre
  · intro hwf
    exact extractGo_eq_findSome? _ hwf

/-- Witness for claim C10 (amended): a malformed entry preceded only by a
non-`next` entry makes the function raise, and a fully well-formed header
is parsed without error. -/
theorem extract_totality_witness :
    (∃ c, extract_next_page_url "<a>; rel=\"prev\", garbage" = .error c) ∧
    extract_next_page_url "<u>; rel=\"next\"" =
      .ok (extractNextPageUrlSpec "<u>; rel=\"next\"") :=
  ⟨(extract_totality "<a>; rel=\"prev\", garbage").1 ["<a>; rel=\"prev\""] "garbage" []
      (by decide) (by decide) (by decide),
   (extract_totality "<u>; rel=\"next\"").2 (by decide)⟩

/-- Claim C1 (divergence witness): when the per-job detail fetch returns
non-200, `get_job` yields the empty dict, and the downstream processing
does NOT skip the job — the `job["artifacts"]` subscript raises `KeyError`
and the process crashes; the same happens at the re-fetches inside the
running-wait and artifact-wait loops. -/
theorem empty_job_detail_crashes :
    processJob cfgEx "proj" apiNone 3 3 = some (.error .keyError) ∧
    checkRunningGo 60 "proj" "unit" "test" (fun _ => none) 2 0 0 "running" =
      some (.error .keyError) ∧
    checkEndGo 120 10 "proj" "unit" "test" (fun _ => none) 2 0 0 [] =
      some (.error .keyError) :=
  ⟨rfl, rfl, rfl⟩

/-- Claim C6: a job whose status is in
{pending, manual, scheduled, skipped, created} is logged and skipped: no
HTTP trace request is issued for it and no file is written. -/
theorem skip_status_no_trace_request (cfg : Config) (pn : String) (api : JobApi)
    (job : JobDetail) (fuelR fuelE : Nat) (hd : api.detail = some job)
    (hskip : job.status ∈ skipStatuses) :
    ∃ effs, processJob cfg pn api fuelR fuelE = some (.ok (.skipped, effs)) ∧
      Effect.traceRequest ∉ effs ∧ writesOf effs = [] := by
  refine ⟨[.fetchJob, .log (jobDebugLine job.raw),
           .log (skipLine job.name job.stage pn job.status)], ?_, by simp, by simp [writesOf]⟩
  simp [processJob, hd, hskip]

/-- Witness for claim C6 at a concrete pending job. -/
theorem skip_status_no_trace_request_witness :
    ∃ effs, processJob cfgEx "proj" apiPending 1 1 = some (.ok (.skipped, effs)) ∧
      Effect.traceRequest ∉ effs ∧ writesOf effs = [] :=
  skip_status_no_trace_request cfgEx "proj" apiPending jobPending 1 1 rfl (by decide)

/-- Claim C7: in the download step a non-200 trace response is logged and
the job abandoned with no file written (the loop then continues and an
all-ok run keeps exit code 0), whereas a missing directory or denied
permission on write terminates the whole process with exit code 1. -/
theorem download_error_handling :
    (∀ (cfg : Config) (pn : String) (api : JobApi) (jn js : String),
       api.trace.status_code ≠ 200 →
       download_logs cfg pn api jn js =
         .ok (.downloadFailed, [.traceRequest, .log (downloadingLine jn js pn),
                                .log (unableLine jn js pn)])) ∧
    (∀ (cfg : Config) (pn : String) (api : JobApi) (jn js : String),
       api.trace.status_code = 200 → api.writeRes = .fileNotFound →
       download_logs cfg pn api jn js = .error .exit1) ∧
    (∀ (cfg : Config) (pn : String) (api : JobApi) (jn js : String),
       api.trace.status_code = 200 → api.writeRes = .permissionDenied →
       download_logs cfg pn api jn js = .error .exit1) ∧
    (∀ (cfg : Config) (pn : String) (api : JobApi) (job : JobDetail) (fuelE n : Nat),
       api.detail = some job → job.status ∉ skipStatuses → job.status ≠ "running" →
       hasTraceArtifact job.artifacts = true → api.trace.status_code ≠ 200 →
       ∃ effs, processJob cfg pn api (n + 1) (fuelE + 1) =
           some (.ok (.downloadFailed, effs)) ∧ writesOf effs = []) ∧
    (∀ (cfg : Config) (pn : String) (fuelR fuelE : Nat) (api : JobApi) (rest : List JobApi)
       (out : JobOutcome) (effs : List Effect),
       processJob cfg pn api fuelR fuelE = some (.ok (out, effs)) →
       (download_pipeline_jobs_logs cfg pn fuelR fuelE (api :: rest)).2 =
         (download_pipeline_jobs_logs cfg pn fuelR fuelE rest).2.map
           (Except.map (out :: ·))) := by
  refine ⟨?_, ?_, ?_, ?_, ?_⟩
  · intro cfg pn api jn js h
    simp [download_logs, h]
  · intro cfg pn api jn js h200 hw
    simp [download_logs, h200, hw]
  · intro cfg pn api jn js h200 hw
    simp [download_logs, h200, hw]
  · intro cfg pn api job fuelE n hd hskip hrun htr h
    refine ⟨[.fetchJob, .log (jobDebugLine job.raw), .traceRequest,
             .log (downloadingLine job.name job.stage pn),
             .log (unableLine job.name job.stage pn)], ?_, by simp [writesOf]⟩
    simp [processJob, hd, hskip, checkRunningGo, hrun, checkEndGo, htr, download_logs, h]
  · intro cfg pn fuelR fuelE api rest out effs h
    simp [download_pipeline_jobs_logs, h]

/-- Witness for claim C7 at concrete jobs: a 404 trace is a per-job
failure that keeps the run going, while filesystem faults crash it. -/
theorem download_error_handling_witness :
    download_logs cfgEx "proj" apiTraceFail "unit" "test" =
      .ok (.downloadFailed, [.traceRequest, .log (downloadingLine "unit" "test" "proj"),
                             .log (unableLine "unit" "test" "proj")]) ∧
    download_logs cfgEx "proj" apiDirMissing "unit" "test" = .error .exit1 ∧
    download_logs cfgEx "proj" apiDirDenied "unit" "test" = .error .exit1 ∧
    (∃ effs, processJob cfgEx "proj" apiTraceFail 1 1 =
        some (.ok (.downloadFailed, effs)) ∧ writesOf effs = []) ∧
    (download_pipeline_jobs_logs cfgEx "proj" 1 1 [apiTraceFail, apiTraceOk]).2 =
      (download_pipeline_jobs_logs cfgEx "proj" 1 1 [apiTraceOk]).2.map
        (Except.map (JobOutcome.downloadFailed :: ·)) :=
  ⟨download_error_handling.1 cfgEx "proj" apiTraceFail "unit" "test" (by decide),
   download_error_handling.2.1 cfgEx "proj" apiDirMissing "unit" "test" rfl rfl,
   download_error_handling.2.2.1 cfgEx "proj" apiDirDenied "unit" "test" rfl rfl,
   download_error_handling.2.2.2.1 cfgEx "proj" apiTraceFail jobDone 0 0 rfl (by decide)
     (by decide) (by decide) (by decide),
   download_error_handling.2.2.2.2 cfgEx "proj" 1 1 apiTraceFail [apiTraceOk]
     .downloadFailed
     [.fetchJob, .log (jobDebugLine "json-job-4"), .traceRequest,
      .log (downloadingLine "unit" "test" "proj"),
      .log (unableLine "unit" "test" "proj")] rfl⟩

/-- Claim C8: a successful (200) trace download writes the raw response
body to `{directory}/{slug(project)}{delim}{slug(stage)}{delim}{slug(job)}.log`;
the example names with delimiter `#` give
`my-proj#test-stage#build-unit-1.log`; the write overwrites whatever was
there (the resulting file content does not depend on the previous one, and
re-writing is idempotent, so a second run produces byte-identical files). -/
theorem download_success_filename :
    (∀ (cfg : Config) (pn : String) (api : JobApi) (jn js : String),
       api.trace.status_code = 200 → api.writeRes = .ok →
       download_logs cfg pn api jn js =
         .ok (.written (cfg.directory ++ "/" ++ logFilename cfg pn js jn) api.trace.content,
              [.traceRequest, .log (downloadingLine jn js pn),
               .fileWrite (cfg.directory ++ "/" ++ logFilename cfg pn js jn)
                 api.trace.content,
               .log (destLine cfg.directory (logFilename cfg pn js jn))])) ∧
    logFilename cfgEx "My Proj!" "Test Stage" "Build Unit#1" =
      "my-proj#test-stage#build-unit-1.log" ∧
    (∀ p c fs, writeFile p c (writeFile p c fs) = writeFile p c fs) ∧
    (∀ p c fs, writeFile p c fs p = some c) := by
  refine ⟨?_, by decide, ?_, ?_⟩
  · intro cfg pn api jn js h200 hw
    simp [download_logs, h200, hw]
  · intro p c fs
    funext q
    by_cases h : q = p <;> simp [writeFile, h]
  · intro p c fs
    simp [writeFile]

/-- Witness for claim C8 at a concrete successful download. -/
theorem download_success_filename_witness :
    download_logs cfgEx "proj" apiTraceOk "unit" "test" =
      .ok (.written (cfgEx.directory ++ "/" ++ logFilename cfgEx "proj" "test" "unit")
             apiTraceOk.trace.content,
           [.traceRequest, .log (downloadingLine "unit" "test" "proj"),
            .fileWrite (cfgEx.directory ++ "/" ++ logFilename cfgEx "proj" "test" "unit")
              apiTraceOk.trace.content,
            .log (destLine cfgEx.directory (logFilename cfgEx "proj" "test" "unit"))]) :=
  download_success_filename.1 cfgEx "proj" apiTraceOk "unit" "test" rfl rfl

/-- One-step unfolding of the running-wait loop at positive fuel. -/
theorem checkRunningGo_succ (T : Nat) (p n s : String) (refetch : Nat → Option JobDetail)
    (fuel elapsed k : Nat) (status : String) :
    checkRunningGo T p n s refetch (fuel + 1) elapsed k status =
      (if status = "running" then
        if T ≤ elapsed then some (.ok (true, [.log (runningTimeoutLine n s p)]))
        else
          match refetch k with
          | none => some (.error .keyError)
          | some d =>
            (checkRunningGo T p n s refetch fuel (elapsed + T) (k + 1) d.status).map
              (Except.map fun r =>
                (r.1, .log (stillRunningLine n s p) :: .sleep T :: .fetchJob ::
                      .log (jobDebugLine d.raw) :: r.2))
      else some (.ok (false, []))) := rfl

/-- One-step unfolding of the artifact-wait loop at positive fuel. -/
theorem checkEndGo_succ (E I : Nat) (p n s : String) (refetch : Nat → Option JobDetail)
    (fuel elapsed k : Nat) (arts : List Artifact) :
    checkEndGo E I p n s refetch (fuel + 1) elapsed k arts =
      (if hasTraceArtifact arts then some (.ok (false, []))
      else if E ≤ elapsed then some (.ok (true, [.log (endTimeoutLine n s p)]))
      else
        match refetch k with
        | none => some (.error .keyError)
        | some d =>
          (checkEndGo E I p n s refetch fuel (elapsed + I) (k + 1) d.artifacts).map
            (Except.map fun r =>
              (r.1, .log (noLogsLine n s p) :: .sleep I :: .fetchJob ::
                    .log (jobDebugLine d.raw) :: r.2))) := rfl

/-- Claim C4: a job whose status stays `"running"` past the running-job
timeout is abandoned (outcome `runningTimeout`, no file written); before
the timeout is reached the loop sleeps the full running-job-timeout
duration (not the check interval) and re-fetches the status — with a
positive timeout this means exactly one sleep of the full duration and one
re-fetch (two `get_job` calls in total) before abandoning. -/
theorem running_timeout_abandons_job (cfg : Config) (pn : String) (api : JobApi)
    (job : JobDetail) (fuelE n : Nat) (hd : api.detail = some job)
    (hs : job.status = "running") (hT : 0 < cfg.runningTimeout)
    (hre : ∀ k, ∃ d, api.statusRefetch k = some d ∧ d.status = "running") :
    ∃ effs, processJob cfg pn api (n + 2) fuelE = some (.ok (.runningTimeout, effs)) ∧
      sleepsOf effs = [cfg.runningTimeout] ∧ writesOf effs = [] ∧
      effs.count .fetchJob = 2 := by
  obtain ⟨d0, hd0, hd0s⟩ := hre 0
  have hskip : job.status ∉ skipStatuses := by rw [hs]; decide
  have h1 : ¬ (cfg.runningTimeout ≤ 0) := by omega
  have h2 : cfg.runningTimeout ≤ 0 + cfg.runningTimeout := by omega
  have hrun : checkRunningGo cfg.runningTimeout pn job.name job.stage api.statusRefetch
      (n + 2) 0 0 job.status =
      some (.ok (true, [.log (stillRunningLine job.name job.stage pn),
                        .sleep cfg.runningTimeout, .fetchJob, .log (jobDebugLine d0.raw),
                        .log (runningTimeoutLine job.name job.stage pn)])) := by
    rw [hs, checkRunningGo_succ, if_pos rfl, if_neg h1, hd0]
    simp [checkRunningGo_succ, hd0s, h2, Except.map]
  refine ⟨[.fetchJob, .log (jobDebugLine job.raw), .log (stillRunningLine job.name job.stage pn),
           .sleep cfg.runningTimeout, .fetchJob, .log (jobDebugLine d0.raw),
           .log (runningTimeoutLine job.name job.stage pn)], ?_, by simp [sleepsOf],
         by simp [writesOf], by rfl⟩
  simp [processJob, hd, hskip, hrun]

/-- Witness for claim C4 at a concrete perpetually-running job with the
default 60-second timeout. -/
theorem running_timeout_abandons_job_witness :
    ∃ effs, processJob cfgEx "proj" apiRunning 2 1 = some (.ok (.runningTimeout, effs)) ∧
      sleepsOf effs = [cfgEx.runningTimeout] ∧ writesOf effs = [] ∧
      effs.count .fetchJob = 2 :=
  running_timeout_abandons_job cfgEx "proj" apiRunning jobRunning 1 0 rfl rfl (by decide)
    fun _ => ⟨jobRunning, rfl, rfl⟩

/-- Abstract run of the artifact-wait loop when no trace artifact ever
appears: once the accumulated sleeps cover the end-job timeout the loop
returns `true`, every sleep is the check interval, and nothing is
written. -/
theorem checkEndGo_timeout (E I : Nat) (p nm st : String) (re : Nat → Option JobDetail)
    (hre : ∀ k, ∃ d, re k = some d ∧ hasTraceArtifact d.artifacts = false) :
    ∀ (fuel elapsed k : Nat) (arts : List Artifact),
    hasTraceArtifact arts = false → E ≤ elapsed + fuel * I →
    ∃ effs, checkEndGo E I p nm st re (fuel + 1) elapsed k arts = some (.ok (true, effs)) ∧
      (∀ t ∈ sleepsOf effs, t = I) ∧ writesOf effs = [] := by
  intro fuel
  induction fuel with
  | zero =>
    intro elapsed k arts hnt hle
    simp only [Nat.zero_mul, Nat.add_zero] at hle
    exact ⟨[.log (endTimeoutLine nm st p)], by simp [checkEndGo, hnt, hle],
           by simp [sleepsOf], by simp [writesOf]⟩
  | succ m ih =>
    intro elapsed k arts hnt hle
    by_cases hE : E ≤ elapsed
    · exact ⟨[.log (endTimeoutLine nm st p)], by simp [checkEndGo, hnt, hE],
             by simp [sleepsOf], by simp [writesOf]⟩
    · obtain ⟨d, hdk, hdnt⟩ := hre k
      have hle2 : E ≤ (elapsed + I) + m * I := by
        have : elapsed + (m + 1) * I = (elapsed + I) + m * I := by ring
        omega
      obtain ⟨effs, heq, hsl, hw⟩ := ih (elapsed + I) (k + 1) d.artifacts hdnt hle2
      refine ⟨.log (noLogsLine nm st p) :: .sleep I :: .fetchJob ::
                .log (jobDebugLine d.raw) :: effs, ?_, ?_, ?_⟩
      · rw [checkEndGo_succ, hnt]
        rw [if_neg (by simp), if_neg hE, hdk]
        simp [heq, Except.map]
      · intro t ht
        simp only [sleepsOf, List.filterMap_cons] at ht
        rcases List.mem_cons.mp ht with h | h
        · exact h
        · exact hsl t h
      · simp only [writesOf, List.filterMap_cons] at hw ⊢
        exact hw

/-- Claim C5: a job (neither skipped nor running) whose artifact list
never contains a `trace` artifact is abandoned once the end-job timeout is
covered (outcome `endTimeout`, no file written); each pre-timeout
iteration sleeps the check-interval duration and re-fetches the artifact
list. -/
theorem end_timeout_abandons_job (cfg : Config) (pn : String) (api : JobApi)
    (job : JobDetail) (m n : Nat) (hd : api.detail = some job)
    (hskip : job.status ∉ skipStatuses) (hrun : job.status ≠ "running")
    (hnt : hasTraceArtifact job.artifacts = false)
    (hre : ∀ k, ∃ d, api.artifactRefetch k = some d ∧ hasTraceArtifact d.artifacts = false)
    (hfuel : cfg.endTimeout ≤ n * cfg.checkInterval) :
    ∃ effs, processJob cfg pn api (m + 1) (n + 1) = some (.ok (.endTimeout, effs)) ∧
      (∀ t ∈ sleepsOf effs, t = cfg.checkInterval) ∧ writesOf effs = [] := by
  have hloop : checkRunningGo cfg.runningTimeout pn job.name job.stage api.statusRefetch
      (m + 1) 0 0 job.status = some (.ok (false, [])) := by
    simp [checkRunningGo, hrun]
  obtain ⟨effs, heq, hsl, hw⟩ := checkEndGo_timeout cfg.endTimeout cfg.checkInterval pn
    job.name job.stage api.artifactRefetch hre n 0 0 job.artifacts hnt (by omega)
  refine ⟨.fetchJob :: .log (jobDebugLine job.raw) :: effs, ?_, ?_, ?_⟩
  · simp [processJob, hd, hskip, hloop, heq]
  · intro t ht
    simp only [sleepsOf, List.filterMap_cons] at ht
    exact hsl t ht
  · simp only [writesOf, List.filterMap_cons] at hw ⊢
    exact hw

/-- Witness for claim C5: with check interval 10 s and end timeout 120 s,
a finished job that never produces a trace artifact is abandoned. -/
theorem end_timeout_abandons_job_witness :
    ∃ effs, processJob cfgEx "proj" apiNoTrace 1 13 = some (.ok (.endTimeout, effs)) ∧
      (∀ t ∈ sleepsOf effs, t = cfgEx.checkInterval) ∧ writesOf effs = [] :=
  end_timeout_abandons_job cfgEx "proj" apiNoTrace jobNoTrace 0 12 rfl (by decide)
    (by decide) (by decide) (fun _ => ⟨jobNoTrace, rfl, by decide⟩) (by decide)

instance : IsAntisymm JobSummary fun a b => a.id ≤ b.id :=
  ⟨fun a b h1 h2 => by cases a with | mk i => cases b with | mk j => simp_all; omega⟩

/-- `sortById` permutes its input. -/
theorem sortById_perm (l : List JobSummary) : (sortById l).Perm l :=
  List.mergeSort_perm l _

/-- `sortById` sorts ascending by job id. -/
theorem sortById_sorted (l : List JobSummary) :
    (sortById l).Sorted fun a b => a.id ≤ b.id := by
  unfold sortById
  have h := @List.sorted_mergeSort JobSummary (fun a b => decide (a.id ≤ b.id))
    (fun a b c h1 h2 => by simp only [decide_eq_true_eq] at *; omega)
    (fun a b => by rcases Nat.le_total a.id b.id with h | h <;> simp [h]) l
  exact h.imp fun hab => by simpa using hab

/-- Two permutation-equal job lists sort to the same list (job summaries
carry only their id, so sorting by id admits no ties between distinct
elements). -/
theorem sortById_eq_of_perm {l1 l2 : List JobSummary} (h : l1.Perm l2) :
    sortById l1 = sortById l2 :=
  List.eq_of_perm_of_sorted ((sortById_perm l1).trans (h.trans (sortById_perm l2).symm))
    (sortById_sorted l1) (sortById_sorted l2)

/-- One-step unfolding of the pagination loop at positive fuel. -/
theorem getPipelineJobsGo_succ (fetch : String → PageResponse) (fuel : Nat)
    (url : String) (acc : List JobSummary) :
    getPipelineJobsGo fetch (fuel + 1) url acc =
      if (fetch url).status_code ≠ 200 then some (.error .exit1)
      else
        match pageNext (fetch url) with
        | .error c => some (.error c)
        | .ok none => some (.ok (acc ++ (fetch url).jobs))
        | .ok (some nextUrl) => getPipelineJobsGo fetch fuel nextUrl (acc ++ (fetch url).jobs) :=
  rfl

/-- The pagination loop on a page chain accumulates the pages' jobs in
order. -/
theorem getPipelineJobsGo_chain (fetch : String → PageResponse) :
    ∀ {url : String} {ps : List PageResponse}, PageChain fetch url ps →
    ∀ (fuel : Nat) (acc : List JobSummary), ps.length ≤ fuel →
    getPipelineJobsGo fetch fuel url acc = some (.ok (acc ++ ps.flatMap (·.jobs))) := by
  intro url ps h
  induction h with
  | last hf h200 hnext =>
    intro fuel acc hlen
    obtain ⟨fuel, rfl⟩ : ∃ m, fuel = m + 1 := ⟨fuel - 1, by simp at hlen; omega⟩
    rw [getPipelineJobsGo_succ, hf]
    simp [h200, hnext]
  | cons hf h200 hnext hrest ih =>
    intro fuel acc hlen
    obtain ⟨fuel, rfl⟩ : ∃ m, fuel = m + 1 := ⟨fuel - 1, by simp at hlen; omega⟩
    rw [getPipelineJobsGo_succ, hf]
    simp only [h200, ne_eq, not_true_eq_false, if_false, hnext]
    rw [ih fuel _ (by simp at hlen; omega)]
    simp

/-- Claim C3: on a sequence of paginated job-list responses linked by
`Link: rel="next"` headers, `get_pipeline_jobs` returns the union of the
job summaries across all pages sorted ascending by id (pagination having
stopped at the first page with no Link header or no next relation), and
the result is the same for any other chain serving a permutation of the
same jobs — the processing order does not depend on the order the API
returned them in. -/
theorem get_pipeline_jobs_sorted_union (fetch : String → PageResponse) (url : String)
    (ps : List PageResponse) (fuel : Nat) (hc : PageChain fetch url ps)
    (hlen : ps.length ≤ fuel) :
    ∃ res, get_pipeline_jobs fetch url fuel = some (.ok res) ∧
      res.Perm (ps.flatMap (·.jobs)) ∧ (res.Sorted fun a b => a.id ≤ b.id) ∧
      ∀ (fetch2 : String → PageResponse) (url2 : String) (ps2 : List PageResponse)
        (fuel2 : Nat), PageChain fetch2 url2 ps2 → ps2.length ≤ fuel2 →
        (ps2.flatMap (·.jobs)).Perm (ps.flatMap (·.jobs)) →
        get_pipeline_jobs fetch2 url2 fuel2 = some (.ok res) := by
  refine ⟨sortById (ps.flatMap (·.jobs)), ?_, sortById_perm _, sortById_sorted _, ?_⟩
  · unfold get_pipeline_jobs
    rw [getPipelineJobsGo_chain fetch hc fuel [] hlen]
    simp [Except.map]
  · intro fetch2 url2 ps2 fuel2 hc2 hlen2 hperm
    unfold get_pipeline_jobs
    rw [getPipelineJobsGo_chain fetch2 hc2 fuel2 [] hlen2]
    simp [Except.map, sortById_eq_of_perm hperm]

/-- Witness for claim C3: two pages holding ids {3,1} and {2} aggregate to
the sorted list [1,2,3], and the alternative serving {1,2} then {3}
produces the same result. -/
theorem get_pipeline_jobs_sorted_union_witness :
    ∃ res, get_pipeline_jobs fetchEx "start" 2 = some (.ok res) ∧
      res.Perm ([page1, page2].flatMap (·.jobs)) ∧ (res.Sorted fun a b => a.id ≤ b.id) ∧
      get_pipeline_jobs fetchEx2 "start" 2 = some (.ok res) := by
  obtain ⟨res, h1, h2, h3, h4⟩ := get_pipeline_jobs_sorted_union fetchEx "start"
    [page1, page2] 2 (PageChain.cons rfl rfl rfl (PageChain.last rfl rfl rfl)) (by decide)
  exact ⟨res, h1, h2, h3,
    h4 fetchEx2 "start" [page1b, page2b] 2
      (PageChain.cons rfl rfl rfl (PageChain.last rfl rfl rfl)) (by decide) (by decide)⟩

/-- Claim C9: the CI_API_TOKEN value flows only into the private-token
request header, never into the log output: two runs whose environments
differ only in the token produce identical log lines (and identical
results), while their session headers carry the respective tokens. -/
theorem token_never_logged (env1 env2 : String → String) (cfg : Config)
    (oracle : RunOracle) (fuelP fuelR fuelE : Nat)
    (h : ∀ v, v ≠ "CI_API_TOKEN" → env1 v = env2 v) :
    (runDownloader env1 cfg oracle fuelP fuelR fuelE).2 =
      (runDownloader env2 cfg oracle fuelP fuelR fuelE).2 ∧
    (runDownloader env1 cfg oracle fuelP fuelR fuelE).1 =
      [("PRIVATE-TOKEN", env1 "CI_API_TOKEN")] ∧
    (runDownloader env2 cfg oracle fuelP fuelR fuelE).1 =
      [("PRIVATE-TOKEN", env2 "CI_API_TOKEN")] := by
  have h1 : env1 "CI_PROJECT_ID" = env2 "CI_PROJECT_ID" := h _ (by decide)
  have h2 : env1 "CI_PIPELINE_ID" = env2 "CI_PIPELINE_ID" := h _ (by decide)
  have h3 : env1 "CI_API_V4_URL" = env2 "CI_API_V4_URL" := h _ (by decide)
  refine ⟨?_, ?_, ?_⟩
  · simp only [runDownloader, MANDATORY_ENV_VARS, List.dropLast, List.map_cons,
      List.map_nil, h1, h2, h3]
    split
    · rfl
    · split <;> rfl
  · simp only [runDownloader]
    split
    · rfl
    · split <;> rfl
  · simp only [runDownloader]
    split
    · rfl
    · split <;> rfl

/-- Witness for claim C9: the environments `envA` and `envB` differ only
in the token, and the runs' log output coincides. -/
theorem token_never_logged_witness :
    (runDownloader envA cfgEx oracleEx 1 1 1).2 =
      (runDownloader envB cfgEx oracleEx 1 1 1).2 ∧
    (runDownloader envA cfgEx oracleEx 1 1 1).1 =
      [("PRIVATE-TOKEN", envA "CI_API_TOKEN")] ∧
    (runDownloader envB cfgEx oracleEx 1 1 1).1 =
      [("PRIVATE-TOKEN", envB "CI_API_TOKEN")] :=
  token_never_logged envA envB cfgEx oracleEx 1 1 1 fun v hv => by simp [envA, envB, hv]

end GitlabJobsLogs
